import Mathlib

/-!
Verification of the manage-social-messages-api reliability core.

The definitions below are a shallow embedding of the JavaScript source:

* `src/services/utils/exponential-backoff.js` — the exponential-backoff retry
  engine and the circuit breaker (the file also ships `processPromises`);
* `src/services/http/with-retry.js` — the HTTP retryability classifier;
* `src/services/social-media/social-media-service.js` — the Social Gateway
  composition `retry(breaker(http))` built by `buildHttpHandler`;
* `src/services/data/mention/base-mention-adapter.js` and
  `mention-comment-adapter.js` — the outbox reply pipeline, mention ingestion
  and the fetch de-duplication filter;
* the Sequelize migrations that create the partial unique indexes on `tasks`
  and the unique index on `mentions."socialMediaPlatformRef"`;
* `MentionDataService.reply` — the operator-facing validation layer.

Times are naturals (milliseconds since epoch), JS `null`/`undefined` fields are
`Option`, thrown errors are explicit error values, and the asynchronous store
is explicit state passing over lists of rows.
-/

namespace MSM

/-- Error thrown by an underlying HTTP request: either no response was received
(network error / timeout) or a response with the given status code came back.
Mirrors the error shapes `shouldRetryHttpError` in `with-retry.js` inspects. -/
inductive HttpError
  | network
  | status (code : Nat)
  deriving DecidableEq, Repr

/-- Errors observable by a caller of the composed Social Gateway handler.
`circuitRejected` is the "Circuit breaker is OPEN … Retry in Ns" rejection
thrown without invoking the wrapped function; `circuitOpened` is the
"circuit opened/reopened" error wrapping the original failure; `http` is the
original request error rethrown while the circuit stays CLOSED. -/
inductive GatewayError
  | circuitRejected (failures : Nat) (waitSeconds : Nat)
  | circuitOpened (orig : HttpError)
  | http (e : HttpError)
  deriving DecidableEq, Repr

/-- Classifier `shouldRetryHttpError` from `with-retry.js`: retry when no response was
received (`!error.response`, which covers the circuit breaker's plain `Error`s
as well as network failures), or on a 5xx status, or on 429. -/
def shouldRetryHttpError : GatewayError → Bool
  | .http (.status code) => 500 ≤ code || code == 429
  | _ => true

/-- Circuit breaker states, `CIRCUIT_STATE` in `circuit-breaker.js`. -/
inductive CircuitState
  | CLOSED
  | OPEN
  | HALF_OPEN
  deriving DecidableEq, Repr

/-- The breaker's in-memory `localState`. -/
structure BreakerLocalState where
  state : CircuitState
  failures : Nat
  lastFailureTime : Option Nat
  nextAttemptTime : Option Nat
  deriving DecidableEq, Repr

/-- The JSON object `persistState` hands to `saveStateFn` (upserted into
`circuit_breaker_states.state_data`): the four state fields plus
`timestamp: Date.now()`. -/
structure PersistRecord where
  state : CircuitState
  failures : Nat
  lastFailureTime : Option Nat
  nextAttemptTime : Option Nat
  timestamp : Nat
  deriving DecidableEq, Repr

/-- Snapshot of the current local state as `persistState` serializes it. -/
def persistRecordOf (s : BreakerLocalState) (now : Nat) : PersistRecord :=
  ⟨s.state, s.failures, s.lastFailureTime, s.nextAttemptTime, now⟩

/-- Transition helper `changeState` from `circuit-breaker.js`: if the state actually changes,
mutate it, fire the `onStateChange` callback with the new state, and persist;
otherwise do nothing. Returns the new state, the persistence writes issued and
the `onStateChange` notifications, in order. -/
def changeState (s : BreakerLocalState) (newState : CircuitState) (now : Nat) :
    BreakerLocalState × List PersistRecord × List CircuitState :=
  if s.state = newState then (s, [], [])
  else
    let s1 := { s with state := newState }
    (s1, [persistRecordOf s1 now], [newState])

/-- Result of one `execute` call on the breaker: the final local state, how
many times the wrapped function was invoked, the error surfaced to the caller
(`none` when `execute` returns normally), and the persistence writes and
state-change notifications issued, in order. -/
structure BreakerResult where
  final : BreakerLocalState
  fnInvocations : Nat
  error : Option GatewayError
  persisted : List PersistRecord
  stateChanges : List CircuitState
  deriving DecidableEq, Repr

/-- The `executeFunction` part of `execute`: invoke the wrapped function once
(`fnResult = none` means it succeeded, `some e` that it threw `e`).
On success reset `failures`, `lastFailureTime`, `nextAttemptTime` and
`changeState(CLOSED)`. On failure increment `failures`, record
`lastFailureTime`, and open the circuit when in HALF_OPEN or when `failures`
reached `maxFailures` (setting `nextAttemptTime := now + resetTimeout` and
throwing the wrapping error); otherwise persist the incremented count and
rethrow the original error. -/
def breakerRunFn (maxFailures resetTimeout : Nat) (s : BreakerLocalState)
    (now : Nat) (fnResult : Option HttpError) : BreakerResult :=
  match fnResult with
  | none =>
      let s1 : BreakerLocalState := { s with failures := 0, lastFailureTime := none, nextAttemptTime := none }
      let c := changeState s1 .CLOSED now
      ⟨c.1, 1, none, c.2.1, c.2.2⟩
  | some e =>
      let s1 : BreakerLocalState := { s with failures := s.failures + 1, lastFailureTime := some now }
      if s1.state = .HALF_OPEN ∨ maxFailures ≤ s1.failures then
        let s2 : BreakerLocalState := { s1 with nextAttemptTime := some (now + resetTimeout) }
        let c := changeState s2 .OPEN now
        ⟨c.1, 1, some (.circuitOpened e), c.2.1, c.2.2⟩
      else
        ⟨s1, 1, some (.http e), [persistRecordOf s1 now], []⟩

/-- One `execute(fn)` call on the circuit breaker. When the circuit is OPEN
and `now` has not reached `nextAttemptTime` (JS compares `now >= null` as
`now >= 0`, hence the `getD 0`), reject immediately without invoking the
function, reporting the failure count and the wait in whole seconds
(`Math.ceil((nextAttemptTime - now) / 1000)`). When OPEN and due, transition
to HALF_OPEN and proceed to invoke the function as the probe. -/
def breakerExecute (maxFailures resetTimeout : Nat) (s : BreakerLocalState)
    (now : Nat) (fnResult : Option HttpError) : BreakerResult :=
  if s.state = .OPEN then
    if s.nextAttemptTime.getD 0 ≤ now then
      let c := changeState s .HALF_OPEN now
      let r := breakerRunFn maxFailures resetTimeout c.1 now fnResult
      ⟨r.final, r.fnInvocations, r.error, c.2.1 ++ r.persisted, c.2.2 ++ r.stateChanges⟩
    else
      ⟨s, 0, some (.circuitRejected s.failures ((s.nextAttemptTime.getD 0 - now + 999) / 1000)),
        [], []⟩
  else
    breakerRunFn maxFailures resetTimeout s now fnResult

/-- Drive the breaker through one `execute` per listed time, every wrapped
invocation failing with `e`. Returns the final local state and the
concatenated `onStateChange` notifications. -/
def breakerFailureRun (maxFailures resetTimeout : Nat) (e : HttpError) :
    BreakerLocalState → List Nat → BreakerLocalState × List CircuitState
  | s, [] => (s, [])
  | s, t :: ts =>
      let r := breakerExecute maxFailures resetTimeout s t (some e)
      let rest := breakerFailureRun maxFailures resetTimeout e r.final ts
      (rest.1, r.stateChanges ++ rest.2)

/-- Configuration of `exponentialBackoff` (`exponential-backoff.js`). -/
structure BackoffConfig where
  maxRetries : Nat
  initialDelay : Nat
  maxDelay : Nat
  factor : Nat
  deriving DecidableEq, Repr

/-- The default parameter values of `exponentialBackoff`
(`maxRetries = 5, initialDelay = 1000, maxDelay = 10000, factor = 2`). -/
def backoffDefaults : BackoffConfig :=
  ⟨5, 1000, 10000, 2⟩

/-- The configuration the Social Gateway's `buildHttpHandler` passes to
`exponentialBackoff` for its outer retry layer
(`maxRetries: 3, initialDelay: 1000, maxDelay: 10000, factor: 2`). -/
def socialGatewayRetryConfig : BackoffConfig :=
  ⟨3, 1000, 10000, 2⟩

/-- The delay slept between attempt `attempt` and the next one:
`Math.min(initialDelay * factor ** attempt + jitter, maxDelay)` where
`jitter = Math.ceil(Math.random() * 1000)` is passed in as an oracle value. -/
def backoffWait (cfg : BackoffConfig) (attempt jitter : Nat) : Nat :=
  min (cfg.initialDelay * cfg.factor ^ attempt + jitter) cfg.maxDelay

/-- Observable outcome of one run of the retry loop: the value returned or
error finally thrown, the number of times the wrapped operation was executed,
and the sleep durations in order. -/
structure BackoffRun (ε α : Type) where
  result : Except ε α
  attemptsMade : Nat
  sleeps : List Nat
  deriving Repr

/-- The `for (let attempt = 0; attempt <= maxRetries; attempt++)` loop of
`exponentialBackoff`, recursing on the remaining retries
(`remaining = maxRetries - attempt`). `results k` is the outcome of the
`k`-th execution of the operation, `jitter k` the jitter drawn before the
`k`-th sleep. The error is rethrown when attempts are exhausted or
`shouldRetry` returns false; otherwise the loop sleeps and retries. -/
def backoffLoop {ε α : Type} (cfg : BackoffConfig) (shouldRetry : ε → Bool)
    (results : Nat → Except ε α) (jitter : Nat → Nat) :
    Nat → Nat → BackoffRun ε α
  | attempt, 0 =>
      match results attempt with
      | .ok a => ⟨.ok a, 1, []⟩
      | .error e => ⟨.error e, 1, []⟩
  | attempt, r + 1 =>
      match results attempt with
      | .ok a => ⟨.ok a, 1, []⟩
      | .error e =>
          if shouldRetry e then
            let w := backoffWait cfg attempt (jitter attempt)
            let rest := backoffLoop cfg shouldRetry results jitter (attempt + 1) r
            ⟨rest.result, rest.attemptsMade + 1, w :: rest.sleeps⟩
          else ⟨.error e, 1, []⟩

/-- A full run of the function returned by `exponentialBackoff`: the loop
starting at attempt 0 with `maxRetries` retries remaining. -/
def backoffRun {ε α : Type} (cfg : BackoffConfig) (shouldRetry : ε → Bool)
    (results : Nat → Except ε α) (jitter : Nat → Nat) : BackoffRun ε α :=
  backoffLoop cfg shouldRetry results jitter 0 cfg.maxRetries

/-- The `shouldRetry` predicate `buildHttpHandler` installs: never retry when
`breaker.getState()` is OPEN or HALF_OPEN, otherwise fall back to
`shouldRetryHttpError`. `state` is the breaker's local state at the moment the
predicate runs, i.e. after the failed attempt. -/
def gatewayShouldRetry (state : CircuitState) (e : GatewayError) : Bool :=
  if state = .OPEN ∨ state = .HALF_OPEN then false else shouldRetryHttpError e

/-- Observable outcome of one logical call through the composed
`retry(breaker(http))` handler. -/
structure ComposedRun where
  result : Except GatewayError Unit
  breakerFinal : BreakerLocalState
  fnInvocations : Nat
  sleeps : List Nat
  deriving Repr

/-- The retry loop of the composed Social Gateway handler
(`retryableHandler(async () => breaker(requestFn))`): each retry attempt is a
full breaker `execute`, the breaker's local state threads through attempts,
and the retry predicate consults the breaker's state after the attempt.
`times k` is `Date.now()` at attempt `k`; `fnResults k` is the outcome of the
underlying HTTP request if the breaker invokes it at attempt `k`. -/
def composedLoop (maxFailures resetTimeout : Nat) (cfg : BackoffConfig)
    (times : Nat → Nat) (fnResults : Nat → Option HttpError) (jitter : Nat → Nat) :
    BreakerLocalState → Nat → Nat → ComposedRun
  | s, attempt, 0 =>
      let br := breakerExecute maxFailures resetTimeout s (times attempt) (fnResults attempt)
      match br.error with
      | none => ⟨.ok (), br.final, br.fnInvocations, []⟩
      | some e => ⟨.error e, br.final, br.fnInvocations, []⟩
  | s, attempt, r + 1 =>
      let br := breakerExecute maxFailures resetTimeout s (times attempt) (fnResults attempt)
      match br.error with
      | none => ⟨.ok (), br.final, br.fnInvocations, []⟩
      | some e =>
          if gatewayShouldRetry br.final.state e then
            let w := backoffWait cfg attempt (jitter attempt)
            let rest := composedLoop maxFailures resetTimeout cfg times fnResults jitter
              br.final (attempt + 1) r
            ⟨rest.result, rest.breakerFinal, br.fnInvocations + rest.fnInvocations,
              w :: rest.sleeps⟩
          else ⟨.error e, br.final, br.fnInvocations, []⟩

/-- One logical call through the composed handler, from attempt 0. -/
def composedRun (maxFailures resetTimeout : Nat) (cfg : BackoffConfig)
    (times : Nat → Nat) (fnResults : Nat → Option HttpError) (jitter : Nat → Nat)
    (s : BreakerLocalState) : ComposedRun :=
  composedLoop maxFailures resetTimeout cfg times fnResults jitter s 0 cfg.maxRetries

/-- Mention types, `mention-types.js`. -/
inductive MentionType
  | COMMENT
  | MESSAGE
  | REPLY
  deriving DecidableEq, Repr

/-- Mention states, `mention-states.js`; the column is nullable. -/
inductive MentionState
  | ASSIGNMENT
  | REPLY_ATTEMPT
  | REPLIED
  | PROVIDER_ERROR
  deriving DecidableEq, Repr

/-- Task codes, `task-types.js`. -/
inductive TaskCode
  | FETCH_COMMENTS
  | FETCH_MESSAGES
  | REPLY_MENTION
  | REPLY_MENTION_IGNORED
  deriving DecidableEq, Repr

/-- The per-platform payload `<platform>: { comment, commentId }` of a reply
response. -/
structure PlatformReply where
  comment : String
  commentId : String
  deriving DecidableEq, Repr

/-- Modelled from the spec: the result of `socialMediaService.reply`, which is
not defined in the repository (`social-media-service.js` only defines
`replyComment`; the integration test injects a mock `reply`). Per the spec's
`ReplyResult` and the upstream interface
`POST /comments/../reply → { success, <platform>: { comment, commentId } }`,
the service reports the outcome as a status string together with the
platform-keyed payload, mirroring the mock
`{ status: 'success', bluesky: { comment, commentId } }`. -/
structure ReplyResult where
  status : String
  platformReply : PlatformReply
  deriving DecidableEq, Repr

/-- A row of the `mentions` table (fields the reply/ingestion pipelines touch). -/
structure Mention where
  id : Nat
  content : String
  socialMediaPlatformRef : String
  socialMediaAPIPostRef : String
  platform : String
  type : MentionType
  state : Option MentionState
  mentionId : Option Nat
  deriving DecidableEq, Repr

/-- The `data` JSONB of a reply task: `{ mentionId, content, reqUser, isIgnored?,
result? }` (`reqUser` is carried opaquely and omitted). -/
structure TaskData where
  mentionId : Option Nat
  content : String
  isIgnored : Bool
  result : Option ReplyResult
  deriving DecidableEq, Repr

/-- A row of the `tasks` table. -/
structure Task where
  id : Nat
  code : TaskCode
  data : TaskData
  startedAt : Option Nat
  finishedAt : Option Nat
  deriving DecidableEq, Repr

/-- An `audits` row as written by `AuditDataService.audit` on a reply attempt. -/
structure AuditRecord where
  event : MentionState
  mentionId : Nat
  taskId : Nat
  deriving DecidableEq, Repr

/-- The relational store as the reply pipeline sees it. -/
structure Db where
  mentions : List Mention
  tasks : List Task
  audits : List AuditRecord
  deriving DecidableEq, Repr

/-- Lookup `db.Mention.findByPk(id)`. -/
def findMention (db : Db) (id : Nat) : Option Mention :=
  db.mentions.find? (fun m => decide (m.id = id))

/-- Update `mention.update({ state })`: every row with the given id gets the new
state; other columns are untouched. -/
def updateMentionState (ms : List Mention) (id : Nat) (st : Option MentionState) :
    List Mention :=
  ms.map (fun m => if m.id = id then { m with state := st } else m)

/-- Update `db.Task.update({ finishedAt, data }, { where: { id } })`. -/
def updateTaskResult (ts : List Task) (id : Nat) (fin : Option Nat) (d : TaskData) :
    List Task :=
  ts.map (fun t => if t.id = id then { t with finishedAt := fin, data := d } else t)

/-- Outcome of `processReplyTask`: the store afterwards and how many upstream
reply calls were made. -/
structure ReplyTaskResult where
  db : Db
  replyCalls : Nat
  deriving Repr

/-- Embedding of `BaseMentionAdapter.processReplyTask` with the comment adapter's
`processReplyResponseToMention`. `reply` is the `socialMediaService.reply`
oracle (see `ReplyResult`), `now` the commit time and `newId` the identity the
store assigns to an inserted child mention. If the task is flagged ignored, or
the target mention has vanished, nothing happens. Otherwise the upstream reply
is sent once; on `result.status == 'success'` a child mention of type REPLY
pointing back at the parent is inserted (content and platform ref lifted from
the platform payload), the parent is marked REPLIED and the task is finished
at `now`; on any other status the parent is marked PROVIDER_ERROR and
`finishedAt` is written back as null. Either way the raw result is stored into
`task.data.result`. -/
def processReplyTask (reply : Mention → String → ReplyResult) (db : Db) (task : Task)
    (now newId : Nat) : ReplyTaskResult :=
  if task.data.isIgnored then ⟨db, 0⟩
  else
    match task.data.mentionId with
    | none => ⟨db, 0⟩
    | some mid =>
      match findMention db mid with
      | none => ⟨db, 0⟩
      | some mention =>
        let result := reply mention task.data.content
        let newData : TaskData := { task.data with result := some result }
        if result.status = "success" then
          let child : Mention :=
            { id := newId
              content := result.platformReply.comment
              socialMediaPlatformRef := result.platformReply.commentId
              socialMediaAPIPostRef := mention.socialMediaAPIPostRef
              platform := mention.platform
              type := .REPLY
              state := none
              mentionId := some mention.id }
          ⟨{ db with
              mentions := child :: updateMentionState db.mentions mention.id (some .REPLIED)
              tasks := updateTaskResult db.tasks task.id (some now) newData }, 1⟩
        else
          ⟨{ db with
              mentions := updateMentionState db.mentions mention.id (some .PROVIDER_ERROR)
              tasks := updateTaskResult db.tasks task.id none newData }, 1⟩

/-- Constant `SOCIAL_MEDIA_API_TASK_REPLY_INTERVAL = '5 minutes'`, in milliseconds. -/
def replyIntervalMs : Nat := 300000

/-- Outcome of `BaseMentionAdapter.reply`: the store afterwards, whether the
call threw (the unique-index violation is rethrown after recording the ignored
attempt), and how many upstream reply calls were made. -/
structure AdapterReplyResult where
  db : Db
  errored : Bool
  replyCalls : Nat
  deriving Repr

/-- Whether inserting a new REPLY_MENTION task for `mid` into `ts` violates the
partial unique index `tasks_code_data_mentionid_idx` on
`(code, data->>'mentionId') WHERE code = 'REPLY_MENTION'`. -/
def replyTaskIndexConflict (ts : List Task) (mid : Nat) : Bool :=
  ts.any (fun t => decide (t.code = .REPLY_MENTION ∧ t.data.mentionId = some mid))

/-- The `DELETE FROM tasks` step of `BaseMentionAdapter.reply`: remove the
unfinished REPLY_MENTION tasks for this mention whose `startedAt` is older
than the 5-minute reply interval (SQL `NULL < x` is not true, hence the
`match` on `startedAt`). -/
def staleReplyTaskSweep (ts : List Task) (mid now : Nat) : List Task :=
  ts.filter (fun t =>
    !(decide (t.code = .REPLY_MENTION ∧ t.data.mentionId = some mid
        ∧ t.finishedAt = none)
      && (match t.startedAt with
          | some s => decide (s < now - replyIntervalMs)
          | none => false)))

/-- Embedding of `BaseMentionAdapter.reply`. Step 1 is the stale-task sweep. Step 2 inserts
a fresh REPLY_MENTION task, writes the REPLY_ATTEMPT audit and marks the
mention REPLY_ATTEMPT; when the insert violates the partial unique index the
transaction rolls back and a REPLY_MENTION_IGNORED task with
`startedAt = finishedAt = now` is recorded instead, the error is rethrown and
no upstream call is made. Step 3, on success, runs `processReplyTask`
synchronously. -/
def adapterReply (reply : Mention → String → ReplyResult) (db : Db) (mention : Mention)
    (content : String) (now taskId newMentionId : Nat) : AdapterReplyResult :=
  let tasks1 := staleReplyTaskSweep db.tasks mention.id now
  let db1 : Db := { db with tasks := tasks1 }
  let taskData : TaskData :=
    { mentionId := some mention.id, content := content, isIgnored := false, result := none }
  if replyTaskIndexConflict tasks1 mention.id then
    let ignored : Task :=
      { id := taskId, code := .REPLY_MENTION_IGNORED, data := taskData
        startedAt := some now, finishedAt := some now }
    ⟨{ db1 with tasks := ignored :: db1.tasks }, true, 0⟩
  else
    let newTask : Task :=
      { id := taskId, code := .REPLY_MENTION, data := taskData
        startedAt := some now, finishedAt := none }
    let db2 : Db := { db1 with
        tasks := newTask :: db1.tasks
        audits := ⟨.REPLY_ATTEMPT, mention.id, taskId⟩ :: db1.audits
        mentions := updateMentionState db1.mentions mention.id (some .REPLY_ATTEMPT) }
    let r := processReplyTask reply db2 newTask now newMentionId
    ⟨r.db, false, r.replyCalls⟩

/-- Number of reply children of the mention `pid`: rows of type REPLY whose
self-reference `mentionId` points at `pid`. -/
def replyChildCount (db : Db) (pid : Nat) : Nat :=
  db.mentions.countP (fun m => decide (m.type = .REPLY ∧ m.mentionId = some pid))

/-- Number of REPLY_MENTION tasks whose `data->>'mentionId'` is `mid` — the
quantity the partial unique index `tasks_code_data_mentionid_idx` keeps at
most 1. -/
def replyTaskCount (ts : List Task) (mid : Nat) : Nat :=
  ts.countP (fun t => decide (t.code = .REPLY_MENTION ∧ t.data.mentionId = some mid))

/-- Invariant I1: at most one REPLY_MENTION task per mention (in particular at
most one in-flight one). -/
def replyTasksUnique (ts : List Task) : Prop :=
  ∀ mid : Nat, replyTaskCount ts mid ≤ 1

/-- One row of the `VALUES` list in `_createMentions`' upsert statement. -/
structure MentionRow where
  content : String
  socialMediaPlatformRef : String
  socialMediaAPIPostRef : String
  platform : String
  type : MentionType
  deriving DecidableEq, Repr

/-- Whether a mention with the given platform ref is present. -/
def hasRef (ms : List Mention) (ref : String) : Bool :=
  ms.any (fun m => decide (m.socialMediaPlatformRef = ref))

/-- Number of mention rows carrying the given platform ref. -/
def refCount (ms : List Mention) (ref : String) : Nat :=
  ms.countP (fun m => decide (m.socialMediaPlatformRef = ref))

/-- Insertion of a single row by `_createMentions`' statement
`INSERT … SELECT … WHERE NOT EXISTS (… "socialMediaPlatformRef" = …)
ON CONFLICT DO NOTHING`: a row whose ref is already present — in the table
when the statement started, or inserted earlier in the same statement (then
caught by `ON CONFLICT DO NOTHING` against the unique index
`mentions_socialmediaplatformref_unq`) — is skipped without error. -/
def insertMentionRow (ms : List Mention) (nid : Nat) (r : MentionRow) : List Mention :=
  if hasRef ms r.socialMediaPlatformRef then ms
  else
    ms ++ [{ id := nid, content := r.content
             socialMediaPlatformRef := r.socialMediaPlatformRef
             socialMediaAPIPostRef := r.socialMediaAPIPostRef
             platform := r.platform, type := r.type
             state := none, mentionId := none }]

/-- Embedding of `BaseMentionAdapter._createMentions`: the whole batch in one statement,
rows taken in order, identities drawn from an increasing sequence. -/
def createMentions (ms : List Mention) (nid : Nat) : List MentionRow → List Mention
  | [] => ms
  | r :: rs => createMentions (insertMentionRow ms nid r) (nid + 1) rs

/-- Ingesting the same batch `rows` for `k` consecutive rounds, round `i`
drawing identities from `nids i`. -/
def ingestRounds (rows : List MentionRow) (nids : Nat → Nat) :
    Nat → List Mention → List Mention
  | 0, ms => ms
  | k + 1, ms => ingestRounds rows (fun i => nids (i + 1)) k (createMentions ms (nids 0) rows)

/-- A post as `Social.listRecentPosts` returns it (only the id is consulted by
the de-duplication filter). -/
structure Post where
  id : String
  deriving DecidableEq, Repr

/-- One element of a FETCH_COMMENTS task's `data.posts` array as
`JSON.parse(task.posts)` yields it: the full post object while the task is in
flight (`fetchAndSyncMentions` stores `postsToFetch` verbatim), or the bare id
string after `processFetchTask` collapses `data.posts` to
`task.data.posts.map(post => post.id)`. -/
inductive PostEntry
  | full (p : Post)
  | idOnly (s : String)
  deriving DecidableEq, Repr

/-- A `tasks` row of code FETCH_COMMENTS as `_findFreshlyFetchedPostIds` reads
it: creation time, completion flag and the parsed `data->>'posts'`. -/
structure FetchTask where
  id : Nat
  posts : List PostEntry
  createdAt : Nat
  finishedAt : Option Nat
  deriving DecidableEq, Repr

/-- Constant `SOCIAL_MEDIA_API_TASK_FETCH_COMMENTS_INTERVAL = '10 minutes'`, in ms. -/
def fetchIntervalMs : Nat := 600000

/-- The SameValueZero comparison `existingPostIds.includes(post.id)` performs
between the id string of a fresh post and one parsed `data.posts` entry: two
strings compare by contents; a string never equals an object, and the objects
`JSON.parse` returns are fresh, so a `full` entry matches no id. -/
def entryEqualsId (e : PostEntry) (pid : String) : Bool :=
  match e with
  | .idOnly s => decide (s = pid)
  | .full _ => false

/-- Embedding of `MentionCommentAdapter._findFreshlyFetchedPostIds`: the flattened
`data->>'posts'` of every FETCH_COMMENTS task created within the last
10 minutes, finished or not (the query adds no `finishedAt` condition). The
JS `[...new Set(...)]` deduplication does not change `includes` membership
and is omitted. -/
def findFreshlyFetchedPostEntries (tasks : List FetchTask) (now : Nat) : List PostEntry :=
  (tasks.filter (fun t => decide (now - fetchIntervalMs ≤ t.createdAt))).flatMap (·.posts)

/-- The filter in `fetchAndSyncMentions`:
`posts.filter((post, index, self) => !existingPostIds.includes(post.id) &&
self.findIndex(p => p.id === post.id) === index)` — drop posts whose id
matches some recently-fetched entry, and keep only the first occurrence of
each id (`seen` accumulates the ids already traversed). -/
def fetchFilter (existing : List PostEntry) : List Post → List String → List Post
  | [], _ => []
  | p :: ps, seen =>
      if existing.any (fun e => entryEqualsId e p.id) || seen.contains p.id then
        fetchFilter existing ps (p.id :: seen)
      else
        p :: fetchFilter existing ps (p.id :: seen)

/-- Embedding of `MentionCommentAdapter.fetchAndSyncMentions`, reduced to its decision:
the filtered post set a new FETCH_COMMENTS task gets (a task is created and
processed only when this is non-empty). -/
def postsToFetch (posts : List Post) (recentTasks : List FetchTask) (now : Nat) :
    List Post :=
  fetchFilter (findFreshlyFetchedPostEntries recentTasks now) posts []

/-- Validation errors of `MentionDataService.reply` (each is a thrown
`Error` mapped to HTTP 400). -/
inductive ValidationError
  | invalidMentionId
  | invalidContent
  | contentTooLong
  | invalidUser
  deriving DecidableEq, Repr

/-- The validation block of `MentionDataService.reply`. The check
`typeof parseInt(String(mentionId), 10) !== 'number'` is vacuous — `parseInt`
always returns a number (`typeof NaN` is `'number'`) — so of the first guard
only the falsiness test `!mentionId` remains, modelled over integer inputs as
`mentionId = 0`. A missing `content` is modelled as `""` (both are falsy), a
missing `actor.id` as `0` and a missing `actor.email` as `""`. -/
def replyValidation (mentionId : Int) (content : String) (userId : Nat)
    (email : String) : Option ValidationError :=
  if mentionId = 0 then some .invalidMentionId
  else if content = "" then some .invalidContent
  else if 10000 < content.length then some .contentTooLong
  else if userId = 0 ∨ email = "" then some .invalidUser
  else none

/-- Errors that `MentionDataService.reply` can surface before or instead of a
completed adapter call. -/
inductive ServiceError
  | validation (e : ValidationError)
  | mentionNotFound
  | noAdapter
  | replyIgnored
  deriving DecidableEq, Repr

/-- Lookup `db.Mention.findByPk(parseInt(String(mentionId), 10))` with an integer
argument: match on the numeric id. -/
def findMentionByIntId (db : Db) (mid : Int) : Option Mention :=
  db.mentions.find? (fun m => decide ((m.id : Int) = mid))

/-- Embedding of `MentionDataService.reply`: validate, load the mention, dispatch to the
adapter registered for its type (only COMMENT is registered). Returns the
store afterwards and the error surfaced, if any; on a validation failure the
store is returned untouched — no task insert or mention update has run. -/
def serviceReply (reply : Mention → String → ReplyResult) (db : Db) (mentionId : Int)
    (content : String) (userId : Nat) (email : String) (now taskId newMentionId : Nat) :
    Db × Option ServiceError :=
  match replyValidation mentionId content userId email with
  | some e => (db, some (.validation e))
  | none =>
    match findMentionByIntId db mentionId with
    | none => (db, some .mentionNotFound)
    | some mention =>
      if mention.type = .COMMENT then
        let r := adapterReply reply db mention content now taskId newMentionId
        (r.db, if r.errored then some .replyIgnored else none)
      else (db, some .noAdapter)

/-- The breaker state reached from CLOSED-with-zero-counters by the given
sequence of all-failing `execute` calls, with the `onStateChange` trace. -/
def breakerScenarioRun (mf rt : Nat) (e : HttpError) (ts : List Nat) :
    BreakerLocalState × List CircuitState :=
  breakerFailureRun mf rt e ⟨.CLOSED, 0, none, none⟩ ts

/-- The successful probe `execute` issued at time `tP` after the failure run. -/
def breakerScenarioProbe (mf rt : Nat) (e : HttpError) (ts : List Nat) (tP : Nat) :
    BreakerResult :=
  breakerExecute mf rt (breakerScenarioRun mf rt e ts).1 tP none

lemma breakerRunFn_invocations (mf rt : Nat) (s : BreakerLocalState) (now : Nat)
    (fnResult : Option HttpError) :
    (breakerRunFn mf rt s now fnResult).fnInvocations = 1 := by
  cases fnResult with
  | none => rfl
  | some e =>
      simp only [breakerRunFn]
      split <;> rfl

lemma breakerExecute_closed_fail_step (mf rt : Nat) (e : HttpError) (f : Nat)
    (lft na : Option Nat) (t : Nat) (hLt : f + 1 < mf) :
    breakerExecute mf rt ⟨.CLOSED, f, lft, na⟩ t (some e) =
      ⟨⟨.CLOSED, f + 1, some t, na⟩, 1, some (.http e),
        [⟨.CLOSED, f + 1, some t, na, t⟩], []⟩ := by
  have hmf : ¬ (mf ≤ f + 1) := by omega
  simp [breakerExecute, breakerRunFn, persistRecordOf, hmf]

lemma breakerExecute_closed_fail_opens (mf rt : Nat) (e : HttpError) (f : Nat)
    (lft na : Option Nat) (t : Nat) (hGe : mf ≤ f + 1) :
    breakerExecute mf rt ⟨.CLOSED, f, lft, na⟩ t (some e) =
      ⟨⟨.OPEN, f + 1, some t, some (t + rt)⟩, 1, some (.circuitOpened e),
        [⟨.OPEN, f + 1, some t, some (t + rt), t⟩], [.OPEN]⟩ := by
  simp [breakerExecute, breakerRunFn, changeState, persistRecordOf, hGe]

lemma breakerExecute_open_probe_ok (mf rt f : Nat) (lft : Option Nat) (na t : Nat)
    (hDue : na ≤ t) :
    breakerExecute mf rt ⟨.OPEN, f, lft, some na⟩ t none =
      ⟨⟨.CLOSED, 0, none, none⟩, 1, none,
        [⟨.HALF_OPEN, f, lft, some na, t⟩, ⟨.CLOSED, 0, none, none, t⟩],
        [.HALF_OPEN, .CLOSED]⟩ := by
  simp [breakerExecute, breakerRunFn, changeState, persistRecordOf, hDue]

lemma breakerFailureRun_append (mf rt : Nat) (e : HttpError) (l1 l2 : List Nat)
    (s : BreakerLocalState) :
    breakerFailureRun mf rt e s (l1 ++ l2) =
      ((breakerFailureRun mf rt e (breakerFailureRun mf rt e s l1).1 l2).1,
        (breakerFailureRun mf rt e s l1).2 ++
          (breakerFailureRun mf rt e (breakerFailureRun mf rt e s l1).1 l2).2) := by
  induction l1 generalizing s with
  | nil => simp [breakerFailureRun]
  | cons t ts ih =>
      simp only [List.cons_append, breakerFailureRun, List.append_eq]
      rw [ih]
      simp [List.append_assoc]

lemma breakerFailureRun_stays_closed (mf rt : Nat) (e : HttpError) (ts : List Nat) :
    ∀ (f : Nat) (lft na : Option Nat), f + ts.length < mf →
      ∃ lft2, breakerFailureRun mf rt e ⟨.CLOSED, f, lft, na⟩ ts =
        (⟨.CLOSED, f + ts.length, lft2, na⟩, []) := by
  induction ts with
  | nil =>
      intro f lft na _
      exact ⟨lft, by simp [breakerFailureRun]⟩
  | cons t ts ih =>
      intro f lft na h
      have hstep := breakerExecute_closed_fail_step mf rt e f lft na t
        (by simp at h; omega)
      have h2 : (f + 1) + ts.length < mf := by simp at h; omega
      obtain ⟨lft2, hrest⟩ := ih (f + 1) (some t) na h2
      refine ⟨lft2, ?_⟩
      simp only [breakerFailureRun]
      rw [hstep]
      dsimp only
      rw [hrest]
      have hl : f + (t :: ts).length = f + 1 + ts.length := by
        simp only [List.length_cons]
        omega
      rw [hl]
      simp

/-- Claim C3: for every circuit breaker configured with a positive failure
threshold `mf` and a positive reset timeout `rt`, a run of exactly `mf`
consecutive failures starting from CLOSED with zero failures, followed by one
successful probe at or after `nextAttemptTime`, drives the state through
CLOSED → OPEN → HALF_OPEN → CLOSED in that order; on the transition out of
CLOSED, `nextAttemptTime` is set to `now + rt`, strictly in the future, and
the persisted write of the transition back to CLOSED carries `failures = 0`
and reflects the final state. -/
theorem claim_C3 (mf rt : Nat) (e : HttpError) (ts1 : List Nat) (tN tP : Nat)
    (hLen : ts1.length + 1 = mf) (hRt : 0 < rt) (hDue : tN + rt ≤ tP) :
    .CLOSED :: ((breakerScenarioRun mf rt e (ts1 ++ [tN])).2 ++
        (breakerScenarioProbe mf rt e (ts1 ++ [tN]) tP).stateChanges) =
      [.CLOSED, .OPEN, .HALF_OPEN, .CLOSED]
    ∧ (breakerScenarioRun mf rt e (ts1 ++ [tN])).1.nextAttemptTime = some (tN + rt)
    ∧ tN < tN + rt
    ∧ (breakerScenarioProbe mf rt e (ts1 ++ [tN]) tP).persisted.getLast? =
        some ⟨.CLOSED, 0, none, none, tP⟩
    ∧ (breakerScenarioProbe mf rt e (ts1 ++ [tN]) tP).final = ⟨.CLOSED, 0, none, none⟩ := by
  obtain ⟨lft2, hclosed⟩ := breakerFailureRun_stays_closed mf rt e ts1 0 none none
    (by omega)
  have hopen := breakerExecute_closed_fail_opens mf rt e (0 + ts1.length) lft2 none tN
    (by omega)
  have hrun : breakerScenarioRun mf rt e (ts1 ++ [tN]) =
      (⟨.OPEN, 0 + ts1.length + 1, some tN, some (tN + rt)⟩, [.OPEN]) := by
    unfold breakerScenarioRun
    rw [breakerFailureRun_append, hclosed]
    simp only [breakerFailureRun]
    rw [hopen]
    dsimp only
    simp
  have hprobe := breakerExecute_open_probe_ok mf rt (0 + ts1.length + 1) (some tN)
    (tN + rt) tP hDue
  have hpr : breakerScenarioProbe mf rt e (ts1 ++ [tN]) tP =
      ⟨⟨.CLOSED, 0, none, none⟩, 1, none,
        [⟨.HALF_OPEN, 0 + ts1.length + 1, some tN, some (tN + rt), tP⟩,
         ⟨.CLOSED, 0, none, none, tP⟩],
        [.HALF_OPEN, .CLOSED]⟩ := by
    unfold breakerScenarioProbe
    rw [hrun]
    exact hprobe
  refine ⟨?_, ?_, by omega, ?_, ?_⟩
  · rw [hrun, hpr]
    rfl
  · rw [hrun]
  · rw [hpr]
    rfl
  · rw [hpr]

/-- Witness for claim C3 at `maxFailures = 3`, `resetTimeout = 1000`, failures
at times 10, 20, 30 and the probe at 2000. -/
theorem claim_C3_witness :
    .CLOSED :: ((breakerScenarioRun 3 1000 .network ([10, 20] ++ [30])).2 ++
        (breakerScenarioProbe 3 1000 .network ([10, 20] ++ [30]) 2000).stateChanges) =
      [.CLOSED, .OPEN, .HALF_OPEN, .CLOSED]
    ∧ (breakerScenarioRun 3 1000 .network ([10, 20] ++ [30])).1.nextAttemptTime =
        some (30 + 1000)
    ∧ 30 < 30 + 1000
    ∧ (breakerScenarioProbe 3 1000 .network ([10, 20] ++ [30]) 2000).persisted.getLast? =
        some ⟨.CLOSED, 0, none, none, 2000⟩
    ∧ (breakerScenarioProbe 3 1000 .network ([10, 20] ++ [30]) 2000).final =
        ⟨.CLOSED, 0, none, none⟩ :=
  claim_C3 3 1000 .network [10, 20] 30 2000 (by decide) (by decide) (by decide)

/-- Claim C4: on every `execute` call while the breaker is OPEN with
`nextAttemptTime = t`: if `now < t` the call rejects immediately with the
circuit-open error and the wrapped function is never invoked (and nothing
changes); if `now ≥ t` the breaker transitions to HALF_OPEN and invokes the
wrapped function exactly once as the probe. -/
theorem claim_C4 (mf rt : Nat) (s : BreakerLocalState) (now t : Nat)
    (fnResult : Option HttpError) (hO : s.state = .OPEN)
    (hNa : s.nextAttemptTime = some t) :
    (now < t → breakerExecute mf rt s now fnResult =
      ⟨s, 0, some (.circuitRejected s.failures ((t - now + 999) / 1000)), [], []⟩)
    ∧ (t ≤ now →
        (breakerExecute mf rt s now fnResult).fnInvocations = 1
        ∧ (breakerExecute mf rt s now fnResult).stateChanges.head? = some .HALF_OPEN) := by
  constructor
  · intro hlt
    have : ¬ (t ≤ now) := by omega
    simp [breakerExecute, hO, hNa, this]
  · intro hge
    simp only [breakerExecute, hO, if_pos rfl, hNa, Option.getD_some, if_pos hge]
    have hch : changeState s .HALF_OPEN now =
        ({ s with state := .HALF_OPEN }, [persistRecordOf { s with state := .HALF_OPEN } now],
          [.HALF_OPEN]) := by
      simp [changeState, hO]
    rw [hch]
    simp [breakerRunFn_invocations]

/-- Witness for claim C4: both branches exercised at concrete states. -/
theorem claim_C4_witness :
    (100 < 1030 → breakerExecute 5 60000 ⟨.OPEN, 5, some 30, some 1030⟩ 100 (some .network) =
      ⟨⟨.OPEN, 5, some 30, some 1030⟩, 0,
        some (.circuitRejected 5 ((1030 - 100 + 999) / 1000)), [], []⟩)
    ∧ (1030 ≤ 2000 →
        (breakerExecute 5 60000 ⟨.OPEN, 5, some 30, some 1030⟩ 2000 none).fnInvocations = 1
        ∧ (breakerExecute 5 60000 ⟨.OPEN, 5, some 30, some 1030⟩ 2000
            none).stateChanges.head? = some .HALF_OPEN) :=
  ⟨(claim_C4 5 60000 ⟨.OPEN, 5, some 30, some 1030⟩ 100 1030 (some .network) rfl rfl).1,
   (claim_C4 5 60000 ⟨.OPEN, 5, some 30, some 1030⟩ 2000 1030 none rfl rfl).2⟩

/-- Claim C10: the breaker persists its state only on state transitions and on
failures that occur while CLOSED. A successful call while already CLOSED
resets the in-memory `failures`, `lastFailureTime` and `nextAttemptTime` but
performs no persistence write (so the stored `state_data` row, which the
health snapshot reads, keeps its old contents until the next transition or
in-CLOSED failure). -/
theorem claim_C10 (mf rt : Nat) :
    (∀ (s : BreakerLocalState) (now : Nat), s.state = .CLOSED →
      breakerExecute mf rt s now none = ⟨⟨.CLOSED, 0, none, none⟩, 1, none, [], []⟩)
    ∧ (∀ (s : BreakerLocalState) (now : Nat) (fnResult : Option HttpError),
        (breakerExecute mf rt s now fnResult).persisted ≠ [] →
          (breakerExecute mf rt s now fnResult).stateChanges ≠ []
          ∨ (s.state = .CLOSED ∧ fnResult ≠ none)) := by
  constructor
  · intro s now hC
    simp [breakerExecute, breakerRunFn, changeState, hC]
  · intro s now fnResult
    rcases hs : s.state with hC | hO | hH
    · cases fnResult with
      | none => simp [breakerExecute, breakerRunFn, changeState, hs]
      | some e => intro _; right; exact ⟨rfl, by simp⟩
    · simp only [breakerExecute, hs, if_pos rfl]
      by_cases hdue : s.nextAttemptTime.getD 0 ≤ now
      · rw [if_pos hdue]
        intro _
        left
        have hch : changeState s .HALF_OPEN now =
            ({ s with state := .HALF_OPEN },
              [persistRecordOf { s with state := .HALF_OPEN } now], [.HALF_OPEN]) := by
          simp [changeState, hs]
        simp [hch]
      · rw [if_neg hdue]
        intro h
        exact absurd rfl h
    · cases fnResult with
      | none =>
          intro _
          left
          simp [breakerExecute, breakerRunFn, changeState, hs]
      | some e =>
          intro _
          left
          simp [breakerExecute, breakerRunFn, changeState, hs]

/-- Witness for claim C10: a success while CLOSED with a stale non-zero
failure count resets the memory state and writes nothing. -/
theorem claim_C10_witness :
    breakerExecute 5 60000 ⟨.CLOSED, 3, some 30, some 99⟩ 100 none =
      ⟨⟨.CLOSED, 0, none, none⟩, 1, none, [], []⟩ :=
  (claim_C10 5 60000).1 ⟨.CLOSED, 3, some 30, some 99⟩ 100 rfl

lemma backoffLoop_attempts_pos {ε α : Type} (cfg : BackoffConfig) (sr : ε → Bool)
    (res : Nat → Except ε α) (j : Nat → Nat) (attempt remaining : Nat) :
    1 ≤ (backoffLoop cfg sr res j attempt remaining).attemptsMade := by
  cases remaining with
  | zero =>
      simp only [backoffLoop]
      cases res attempt <;> simp
  | succ r =>
      simp only [backoffLoop]
      cases res attempt with
      | ok a => simp
      | error e =>
          by_cases h : sr e = true <;> simp [h]

lemma backoffLoop_spec {ε α : Type} (cfg : BackoffConfig) (sr : ε → Bool)
    (res : Nat → Except ε α) (j : Nat → Nat) :
    ∀ (remaining attempt : Nat),
      (backoffLoop cfg sr res j attempt remaining).attemptsMade ≤ remaining + 1
      ∧ (backoffLoop cfg sr res j attempt remaining).sleeps =
          (List.range ((backoffLoop cfg sr res j attempt remaining).attemptsMade - 1)).map
            (fun k => backoffWait cfg (attempt + k) (j (attempt + k))) := by
  intro remaining
  induction remaining with
  | zero =>
      intro attempt
      simp only [backoffLoop]
      cases res attempt <;> simp
  | succ r ih =>
      intro attempt
      simp only [backoffLoop]
      cases res attempt with
      | ok a => simp
      | error e =>
          dsimp only
          by_cases h : sr e = true
          · rw [if_pos h]
            obtain ⟨ih1, ih2⟩ := ih (attempt + 1)
            have hpos := backoffLoop_attempts_pos cfg sr res j (attempt + 1) r
            obtain ⟨m, hm⟩ := Nat.exists_eq_add_of_le hpos
            refine ⟨by dsimp only; omega, ?_⟩
            dsimp only
            rw [ih2, hm]
            have h1 : 1 + m + 1 - 1 = m + 1 := by omega
            have h2 : 1 + m - 1 = m := by omega
            rw [h1, h2, List.range_succ_eq_map]
            simp only [List.map_cons, List.map_map, Nat.add_zero]
            congr 1
            apply List.map_congr_left
            intro k _
            simp only [Function.comp]
            rw [show attempt + Nat.succ k = attempt + 1 + k from by omega]
          · simp [h]

/-- Counterexample to claim C8 as stated: the retry engine's own default
configuration sets `maxRetries = 5`, not 3 (the value 3 is what the Social
Gateway passes explicitly). -/
theorem claim_C8_counterexample :
    backoffDefaults.maxRetries = 5 ∧ ¬ backoffDefaults.maxRetries = 3 := by
  decide

/-- Claim C8, amended: the retry engine executes an operation at most
`maxRetries + 1` times, and between consecutive attempts sleeps
`min(initialDelay · factor^attempt + jitter, maxDelay)` with the jitter for
each attempt drawn from [0, 1000] ms; its default configuration is
`maxRetries = 5`, `initialDelay = 1000` ms, `maxDelay = 10000` ms,
`factor = 2` (the Social Gateway configures its retry layer with
`maxRetries = 3` explicitly). -/
theorem claim_C8 {ε α : Type} (cfg : BackoffConfig) (sr : ε → Bool)
    (res : Nat → Except ε α) (j : Nat → Nat) (hj : ∀ i, j i ≤ 1000) :
    (backoffRun cfg sr res j).attemptsMade ≤ cfg.maxRetries + 1
    ∧ (backoffRun cfg sr res j).sleeps =
        (List.range ((backoffRun cfg sr res j).attemptsMade - 1)).map
          (fun k => min (cfg.initialDelay * cfg.factor ^ k + j k) cfg.maxDelay)
    ∧ backoffDefaults = ⟨5, 1000, 10000, 2⟩
    ∧ socialGatewayRetryConfig.maxRetries = 3 := by
  obtain ⟨h1, h2⟩ := backoffLoop_spec cfg sr res j cfg.maxRetries 0
  refine ⟨h1, ?_, rfl, rfl⟩
  rw [backoffRun, h2]
  apply List.map_congr_left
  intro k _
  simp [backoffWait]

/-- Witness for claim C8: the default configuration against an operation that
always fails on a retry-everything predicate with jitter 500 makes exactly
6 attempts and sleeps 1500, 2500, 4500, 8500, 10000 ms. -/
theorem claim_C8_witness :
    (backoffRun backoffDefaults (fun _ => true) (fun _ => (.error 7 : Except Nat Unit))
        (fun _ => 500)).attemptsMade ≤ backoffDefaults.maxRetries + 1
    ∧ (backoffRun backoffDefaults (fun _ => true) (fun _ => (.error 7 : Except Nat Unit))
        (fun _ => 500)).sleeps =
        (List.range ((backoffRun backoffDefaults (fun _ => true)
            (fun _ => (.error 7 : Except Nat Unit)) (fun _ => 500)).attemptsMade - 1)).map
          (fun k => min (backoffDefaults.initialDelay * backoffDefaults.factor ^ k + 500)
            backoffDefaults.maxDelay)
    ∧ backoffDefaults = ⟨5, 1000, 10000, 2⟩
    ∧ socialGatewayRetryConfig.maxRetries = 3 :=
  claim_C8 backoffDefaults (fun _ => true) (fun _ => (.error 7 : Except Nat Unit))
    (fun _ => 500) (fun _ => (by decide : (500 : Nat) ≤ 1000))

lemma breakerExecute_fn_le_one (mf rt : Nat) (s : BreakerLocalState) (now : Nat)
    (fnResult : Option HttpError) :
    (breakerExecute mf rt s now fnResult).fnInvocations ≤ 1 := by
  simp only [breakerExecute]
  split
  · split
    · simp [breakerRunFn_invocations]
    · simp
  · simp [breakerRunFn_invocations]

lemma breakerRunFn_error_state (mf rt : Nat) (s : BreakerLocalState) (now : Nat)
    (fnResult : Option HttpError) (e : GatewayError) (hH : s.state = .HALF_OPEN)
    (he : (breakerRunFn mf rt s now fnResult).error = some e) :
    (breakerRunFn mf rt s now fnResult).final.state = .OPEN := by
  cases fnResult with
  | none => simp [breakerRunFn] at he
  | some err => simp [breakerRunFn, changeState, hH]

lemma breakerExecute_error_state (mf rt : Nat) (s : BreakerLocalState) (now : Nat)
    (fnResult : Option HttpError) (e : GatewayError) (hne : s.state ≠ .CLOSED)
    (he : (breakerExecute mf rt s now fnResult).error = some e) :
    (breakerExecute mf rt s now fnResult).final.state = .OPEN := by
  rcases hs : s.state with hC | hO | hH
  · exact absurd hs hne
  · rw [breakerExecute, if_pos hs] at he ⊢
    by_cases hdue : s.nextAttemptTime.getD 0 ≤ now
    · rw [if_pos hdue] at he ⊢
      have hch : changeState s .HALF_OPEN now =
          ({ s with state := .HALF_OPEN },
            [persistRecordOf { s with state := .HALF_OPEN } now], [.HALF_OPEN]) := by
        simp [changeState, hs]
      rw [hch] at he ⊢
      exact breakerRunFn_error_state mf rt _ now fnResult e rfl he
    · rw [if_neg hdue] at he ⊢
      exact hs
  · rw [breakerExecute, if_neg (by rw [hs]; intro h; cases h)] at he ⊢
    exact breakerRunFn_error_state mf rt s now fnResult e hs he

/-- Claim C5: through the Social Gateway's composed retry-over-breaker
handler, whenever the breaker's current state is not CLOSED, the underlying
operation is attempted at most once per logical call, no backoff sleep occurs,
circuit-rejected attempts do not consume retries — the loop stops after the
first attempt no matter how many retries remain — and the caller receives the
first breaker error (the rejection, when the circuit rejected) directly. -/
theorem claim_C5 (mf rt : Nat) (cfg : BackoffConfig) (times : Nat → Nat)
    (fnResults : Nat → Option HttpError) (jitter : Nat → Nat)
    (s : BreakerLocalState) (hne : s.state ≠ .CLOSED) :
    (composedRun mf rt cfg times fnResults jitter s).sleeps = []
    ∧ (composedRun mf rt cfg times fnResults jitter s).fnInvocations =
        (breakerExecute mf rt s (times 0) (fnResults 0)).fnInvocations
    ∧ (composedRun mf rt cfg times fnResults jitter s).fnInvocations ≤ 1
    ∧ (composedRun mf rt cfg times fnResults jitter s).result =
        (match (breakerExecute mf rt s (times 0) (fnResults 0)).error with
          | none => .ok ()
          | some e => .error e)
    ∧ (composedRun mf rt cfg times fnResults jitter s).breakerFinal =
        (breakerExecute mf rt s (times 0) (fnResults 0)).final := by
  have hfn := breakerExecute_fn_le_one mf rt s (times 0) (fnResults 0)
  cases hmr : cfg.maxRetries with
  | zero =>
      rw [composedRun, hmr]
      simp only [composedLoop]
      cases herr : (breakerExecute mf rt s (times 0) (fnResults 0)).error with
      | none => exact ⟨rfl, rfl, hfn, rfl, rfl⟩
      | some e => exact ⟨rfl, rfl, hfn, rfl, rfl⟩
  | succ r =>
      rw [composedRun, hmr]
      simp only [composedLoop]
      cases herr : (breakerExecute mf rt s (times 0) (fnResults 0)).error with
      | none => exact ⟨rfl, rfl, hfn, rfl, rfl⟩
      | some e =>
          have hst := breakerExecute_error_state mf rt s (times 0) (fnResults 0) e hne herr
          have hsr : gatewayShouldRetry
              (breakerExecute mf rt s (times 0) (fnResults 0)).final.state e = false := by
            simp [gatewayShouldRetry, hst]
          dsimp only
          rw [if_neg (by rw [hsr]; simp)]
          exact ⟨rfl, rfl, hfn, rfl, rfl⟩

/-- Witness for claim C5: a breaker that is OPEN and not yet due rejects the
single iteration with the rejection error, without invoking the request and
without sleeping, despite 3 configured retries. -/
theorem claim_C5_witness :
    (composedRun 5 60000 socialGatewayRetryConfig (fun _ => 0) (fun _ => some .network)
        (fun _ => 1) ⟨.OPEN, 5, none, some 100⟩).sleeps = []
    ∧ (composedRun 5 60000 socialGatewayRetryConfig (fun _ => 0) (fun _ => some .network)
        (fun _ => 1) ⟨.OPEN, 5, none, some 100⟩).fnInvocations =
        (breakerExecute 5 60000 ⟨.OPEN, 5, none, some 100⟩ 0 (some .network)).fnInvocations
    ∧ (composedRun 5 60000 socialGatewayRetryConfig (fun _ => 0) (fun _ => some .network)
        (fun _ => 1) ⟨.OPEN, 5, none, some 100⟩).fnInvocations ≤ 1
    ∧ (composedRun 5 60000 socialGatewayRetryConfig (fun _ => 0) (fun _ => some .network)
        (fun _ => 1) ⟨.OPEN, 5, none, some 100⟩).result =
        (match (breakerExecute 5 60000 ⟨.OPEN, 5, none, some 100⟩ 0 (some .network)).error with
          | none => .ok ()
          | some e => .error e)
    ∧ (composedRun 5 60000 socialGatewayRetryConfig (fun _ => 0) (fun _ => some .network)
        (fun _ => 1) ⟨.OPEN, 5, none, some 100⟩).breakerFinal =
        (breakerExecute 5 60000 ⟨.OPEN, 5, none, some 100⟩ 0 (some .network)).final :=
  claim_C5 5 60000 socialGatewayRetryConfig (fun _ => 0) (fun _ => some .network)
    (fun _ => 1) ⟨.OPEN, 5, none, some 100⟩ (by decide)

lemma mem_updateMentionState_state (ms : List Mention) (id : Nat)
    (st : Option MentionState) :
    ∀ m ∈ updateMentionState ms id st, m.id = id → m.state = st := by
  intro m hm hid
  simp only [updateMentionState, List.mem_map] at hm
  obtain ⟨m0, hm0, heq⟩ := hm
  by_cases h : m0.id = id
  · rw [if_pos h] at heq
    rw [← heq]
  · rw [if_neg h] at heq
    rw [← heq] at hid
    exact absurd hid h

lemma mem_updateTaskResult_finished (ts : List Task) (id : Nat) (fin : Option Nat)
    (d : TaskData) :
    ∀ t ∈ updateTaskResult ts id fin d, t.id = id → t.finishedAt = fin := by
  intro t ht hid
  simp only [updateTaskResult, List.mem_map] at ht
  obtain ⟨t0, ht0, heq⟩ := ht
  by_cases h : t0.id = id
  · rw [if_pos h] at heq
    rw [← heq]
  · rw [if_neg h] at heq
    rw [← heq] at hid
    exact absurd hid h

lemma updateMentionState_replyChildCount (ms : List Mention) (id : Nat)
    (st : Option MentionState) (pid : Nat) :
    (updateMentionState ms id st).countP
        (fun m => decide (m.type = .REPLY ∧ m.mentionId = some pid)) =
      ms.countP (fun m => decide (m.type = .REPLY ∧ m.mentionId = some pid)) := by
  unfold updateMentionState
  rw [List.countP_map]
  apply List.countP_congr
  intro m _
  by_cases h : m.id = id <;> simp [h, Function.comp]

/-- Claim C1: for a REPLY_MENTION task processed by `processReplyTask` (not
flagged ignored, whose target mention exists, and with a fresh child id):
when the upstream reply reports success, exactly one child mention of type
REPLY with `mentionId` pointing at the parent is inserted, the parent's state
becomes REPLIED and the task is finished at `now`; on any other status the
parent's state becomes PROVIDER_ERROR, `finishedAt` stays null, and no child
is inserted. The upstream call is made exactly once either way. -/
theorem claim_C1 (reply : Mention → String → ReplyResult) (db : Db) (task : Task)
    (now newId mid : Nat) (mention : Mention)
    (hIg : task.data.isIgnored = false)
    (hMid : task.data.mentionId = some mid)
    (hFind : findMention db mid = some mention)
    (hFresh : ∀ m ∈ db.mentions, m.id ≠ newId) :
    ((reply mention task.data.content).status = "success" →
      replyChildCount (processReplyTask reply db task now newId).db mention.id =
          replyChildCount db mention.id + 1
      ∧ (∀ m ∈ (processReplyTask reply db task now newId).db.mentions,
            m.id = mention.id → m.state = some .REPLIED)
      ∧ (∀ t ∈ (processReplyTask reply db task now newId).db.tasks,
            t.id = task.id → t.finishedAt = some now)
      ∧ (processReplyTask reply db task now newId).replyCalls = 1)
    ∧ (¬ (reply mention task.data.content).status = "success" →
      (∀ m ∈ (processReplyTask reply db task now newId).db.mentions,
          m.id = mention.id → m.state = some .PROVIDER_ERROR)
      ∧ (∀ t ∈ (processReplyTask reply db task now newId).db.tasks,
          t.id = task.id → t.finishedAt = none)
      ∧ replyChildCount (processReplyTask reply db task now newId).db mention.id =
          replyChildCount db mention.id
      ∧ (processReplyTask reply db task now newId).replyCalls = 1) := by
  have hmem : mention ∈ db.mentions := List.mem_of_find?_eq_some hFind
  have hne : mention.id ≠ newId := hFresh mention hmem
  constructor
  · intro hs
    have hpr : processReplyTask reply db task now newId =
        ⟨{ db with
            mentions := ⟨newId, (reply mention task.data.content).platformReply.comment,
                (reply mention task.data.content).platformReply.commentId,
                mention.socialMediaAPIPostRef, mention.platform, .REPLY, none,
                some mention.id⟩ ::
              updateMentionState db.mentions mention.id (some .REPLIED)
            tasks := updateTaskResult db.tasks task.id (some now)
              { task.data with result := some (reply mention task.data.content) } }, 1⟩ := by
      simp only [processReplyTask, hIg, hMid, hFind]
      rw [if_neg (by simp [hIg]), if_pos hs]
    rw [hpr]
    refine ⟨?_, ?_, ?_, rfl⟩
    · simp only [replyChildCount, List.countP_cons]
      rw [updateMentionState_replyChildCount]
      simp
    · intro m hm hmid
      rcases List.mem_cons.mp hm with hchild | hupd
      · rw [hchild] at hmid
        exact absurd hmid.symm hne
      · exact mem_updateMentionState_state db.mentions mention.id (some .REPLIED) m hupd hmid
    · exact mem_updateTaskResult_finished db.tasks task.id (some now) _
  · intro hs
    have hpr : processReplyTask reply db task now newId =
        ⟨{ db with
            mentions := updateMentionState db.mentions mention.id (some .PROVIDER_ERROR)
            tasks := updateTaskResult db.tasks task.id none
              { task.data with result := some (reply mention task.data.content) } }, 1⟩ := by
      simp only [processReplyTask, hIg, hMid, hFind]
      rw [if_neg (by simp [hIg]), if_neg hs]
    rw [hpr]
    refine ⟨?_, ?_, ?_, rfl⟩
    · exact mem_updateMentionState_state db.mentions mention.id (some .PROVIDER_ERROR)
    · exact mem_updateTaskResult_finished db.tasks task.id none _
    · simp only [replyChildCount]
      rw [updateMentionState_replyChildCount]

/-- Witness for claim C1: a one-mention store, a task targeting it, and a
reply oracle reporting success. -/
theorem claim_C1_witness :
    ((((fun _ _ => ⟨"success", ⟨"hi", "r1"⟩⟩) : Mention → String → ReplyResult)
          ⟨1, "c", "ref1", "post1", "bluesky", .COMMENT, none, none⟩ "hello").status =
        "success" →
      replyChildCount
          (processReplyTask (fun _ _ => ⟨"success", ⟨"hi", "r1"⟩⟩)
            ⟨[⟨1, "c", "ref1", "post1", "bluesky", .COMMENT, none, none⟩],
              [⟨7, .REPLY_MENTION, ⟨some 1, "hello", false, none⟩, some 50, none⟩], []⟩
            ⟨7, .REPLY_MENTION, ⟨some 1, "hello", false, none⟩, some 50, none⟩ 60 2).db 1 =
        replyChildCount
          ⟨[⟨1, "c", "ref1", "post1", "bluesky", .COMMENT, none, none⟩],
            [⟨7, .REPLY_MENTION, ⟨some 1, "hello", false, none⟩, some 50, none⟩], []⟩ 1 + 1
      ∧ (∀ m ∈ (processReplyTask (fun _ _ => ⟨"success", ⟨"hi", "r1"⟩⟩)
            ⟨[⟨1, "c", "ref1", "post1", "bluesky", .COMMENT, none, none⟩],
              [⟨7, .REPLY_MENTION, ⟨some 1, "hello", false, none⟩, some 50, none⟩], []⟩
            ⟨7, .REPLY_MENTION, ⟨some 1, "hello", false, none⟩, some 50, none⟩ 60 2).db.mentions,
            m.id = (⟨1, "c", "ref1", "post1", "bluesky", .COMMENT, none, none⟩ : Mention).id →
              m.state = some .REPLIED)
      ∧ (∀ t ∈ (processReplyTask (fun _ _ => ⟨"success", ⟨"hi", "r1"⟩⟩)
            ⟨[⟨1, "c", "ref1", "post1", "bluesky", .COMMENT, none, none⟩],
              [⟨7, .REPLY_MENTION, ⟨some 1, "hello", false, none⟩, some 50, none⟩], []⟩
            ⟨7, .REPLY_MENTION, ⟨some 1, "hello", false, none⟩, some 50, none⟩ 60 2).db.tasks,
            t.id = (⟨7, .REPLY_MENTION, ⟨some 1, "hello", false, none⟩, some 50, none⟩ : Task).id →
              t.finishedAt = some 60)
      ∧ (processReplyTask (fun _ _ => ⟨"success", ⟨"hi", "r1"⟩⟩)
          ⟨[⟨1, "c", "ref1", "post1", "bluesky", .COMMENT, none, none⟩],
            [⟨7, .REPLY_MENTION, ⟨some 1, "hello", false, none⟩, some 50, none⟩], []⟩
          ⟨7, .REPLY_MENTION, ⟨some 1, "hello", false, none⟩, some 50, none⟩ 60 2).replyCalls = 1)
    ∧ (¬ (((fun _ _ => ⟨"success", ⟨"hi", "r1"⟩⟩) : Mention → String → ReplyResult)
          ⟨1, "c", "ref1", "post1", "bluesky", .COMMENT, none, none⟩ "hello").status =
        "success" →
      (∀ m ∈ (processReplyTask (fun _ _ => ⟨"success", ⟨"hi", "r1"⟩⟩)
          ⟨[⟨1, "c", "ref1", "post1", "bluesky", .COMMENT, none, none⟩],
            [⟨7, .REPLY_MENTION, ⟨some 1, "hello", false, none⟩, some 50, none⟩], []⟩
          ⟨7, .REPLY_MENTION, ⟨some 1, "hello", false, none⟩, some 50, none⟩ 60 2).db.mentions,
          m.id = (⟨1, "c", "ref1", "post1", "bluesky", .COMMENT, none, none⟩ : Mention).id →
            m.state = some .PROVIDER_ERROR)
      ∧ (∀ t ∈ (processReplyTask (fun _ _ => ⟨"success", ⟨"hi", "r1"⟩⟩)
          ⟨[⟨1, "c", "ref1", "post1", "bluesky", .COMMENT, none, none⟩],
            [⟨7, .REPLY_MENTION, ⟨some 1, "hello", false, none⟩, some 50, none⟩], []⟩
          ⟨7, .REPLY_MENTION, ⟨some 1, "hello", false, none⟩, some 50, none⟩ 60 2).db.tasks,
          t.id = (⟨7, .REPLY_MENTION, ⟨some 1, "hello", false, none⟩, some 50, none⟩ : Task).id →
            t.finishedAt = none)
      ∧ replyChildCount (processReplyTask (fun _ _ => ⟨"success", ⟨"hi", "r1"⟩⟩)
          ⟨[⟨1, "c", "ref1", "post1", "bluesky", .COMMENT, none, none⟩],
            [⟨7, .REPLY_MENTION, ⟨some 1, "hello", false, none⟩, some 50, none⟩], []⟩
          ⟨7, .REPLY_MENTION, ⟨some 1, "hello", false, none⟩, some 50, none⟩ 60 2).db 1 =
        replyChildCount
          ⟨[⟨1, "c", "ref1", "post1", "bluesky", .COMMENT, none, none⟩],
            [⟨7, .REPLY_MENTION, ⟨some 1, "hello", false, none⟩, some 50, none⟩], []⟩ 1
      ∧ (processReplyTask (fun _ _ => ⟨"success", ⟨"hi", "r1"⟩⟩)
          ⟨[⟨1, "c", "ref1", "post1", "bluesky", .COMMENT, none, none⟩],
            [⟨7, .REPLY_MENTION, ⟨some 1, "hello", false, none⟩, some 50, none⟩], []⟩
          ⟨7, .REPLY_MENTION, ⟨some 1, "hello", false, none⟩, some 50, none⟩ 60 2).replyCalls = 1) :=
  claim_C1 (fun _ _ => ⟨"success", ⟨"hi", "r1"⟩⟩)
    ⟨[⟨1, "c", "ref1", "post1", "bluesky", .COMMENT, none, none⟩],
      [⟨7, .REPLY_MENTION, ⟨some 1, "hello", false, none⟩, some 50, none⟩], []⟩
    ⟨7, .REPLY_MENTION, ⟨some 1, "hello", false, none⟩, some 50, none⟩ 60 2 1
    ⟨1, "c", "ref1", "post1", "bluesky", .COMMENT, none, none⟩
    rfl rfl (by decide) (by decide)

lemma updateTaskResult_replyTaskCount (ts : List Task) (id : Nat) (fin : Option Nat)
    (d : TaskData) (mid : Nat)
    (h : ∀ t ∈ ts, t.id = id → t.data.mentionId = d.mentionId) :
    replyTaskCount (updateTaskResult ts id fin d) mid = replyTaskCount ts mid := by
  unfold replyTaskCount updateTaskResult
  rw [List.countP_map]
  apply List.countP_congr
  intro t ht
  by_cases hid : t.id = id
  · have hmid := h t ht hid
    simp [hid, Function.comp, hmid]
  · simp [hid, Function.comp]

lemma processReplyTask_tasks_shape (reply : Mention → String → ReplyResult) (db : Db)
    (task : Task) (now newId : Nat) :
    (processReplyTask reply db task now newId).db.tasks = db.tasks
    ∨ ∃ (fin : Option Nat) (r : ReplyResult),
        (processReplyTask reply db task now newId).db.tasks =
          updateTaskResult db.tasks task.id fin { task.data with result := some r } := by
  unfold processReplyTask
  split
  · left; rfl
  · split
    · left; rfl
    · split
      · left; rfl
      · dsimp only
        split
        · right; exact ⟨some now, _, rfl⟩
        · right; exact ⟨none, _, rfl⟩

lemma processReplyTask_replyTaskCount (reply : Mention → String → ReplyResult) (db : Db)
    (task : Task) (now newId mid : Nat)
    (h : ∀ t ∈ db.tasks, t.id = task.id → t.data.mentionId = task.data.mentionId) :
    replyTaskCount (processReplyTask reply db task now newId).db.tasks mid =
      replyTaskCount db.tasks mid := by
  rcases processReplyTask_tasks_shape reply db task now newId with hsame | ⟨fin, r, heq⟩
  · rw [hsame]
  · rw [heq]
    exact updateTaskResult_replyTaskCount db.tasks task.id fin _ mid h

lemma replyTaskCount_sweep_le (ts : List Task) (mid0 now mid : Nat) :
    replyTaskCount (staleReplyTaskSweep ts mid0 now) mid ≤ replyTaskCount ts mid :=
  (List.filter_sublist ts).countP_le _

lemma replyTaskCount_cons (t : Task) (ts : List Task) (mid : Nat) :
    replyTaskCount (t :: ts) mid =
      replyTaskCount ts mid +
        (if t.code = .REPLY_MENTION ∧ t.data.mentionId = some mid then 1 else 0) := by
  by_cases h : t.code = .REPLY_MENTION ∧ t.data.mentionId = some mid <;>
    simp [replyTaskCount, List.countP_cons, h]

lemma replyTaskCount_of_no_conflict (ts : List Task) (mid : Nat)
    (h : replyTaskIndexConflict ts mid = false) :
    replyTaskCount ts mid = 0 := by
  apply List.countP_eq_zero.mpr
  intro t ht hp
  have : ts.any (fun t => decide (t.code = .REPLY_MENTION ∧ t.data.mentionId = some mid)) =
      true := List.any_eq_true.mpr ⟨t, ht, hp⟩
  rw [replyTaskIndexConflict] at h
  rw [h] at this
  cases this

/-- Claim C2: at most one REPLY_MENTION task per mention exists (the partial
unique index invariant is preserved by `BaseMentionAdapter.reply` when the
new task id is fresh), and when the insert would violate that index the
adapter instead records a REPLY_MENTION_IGNORED task with
`startedAt = finishedAt = now` at the head of the table, reports the error,
and makes no upstream reply call. -/
theorem claim_C2 (reply : Mention → String → ReplyResult) (db : Db) (mention : Mention)
    (content : String) (now taskId newMentionId : Nat)
    (hFreshTask : ∀ t ∈ db.tasks, t.id ≠ taskId)
    (hUniq : replyTasksUnique db.tasks) :
    replyTasksUnique (adapterReply reply db mention content now taskId newMentionId).db.tasks
    ∧ (replyTaskIndexConflict (staleReplyTaskSweep db.tasks mention.id now) mention.id =
          true →
        (adapterReply reply db mention content now taskId newMentionId).db.tasks.head? =
          some ⟨taskId, .REPLY_MENTION_IGNORED,
            ⟨some mention.id, content, false, none⟩, some now, some now⟩
        ∧ (adapterReply reply db mention content now taskId newMentionId).errored = true
        ∧ (adapterReply reply db mention content now taskId newMentionId).replyCalls = 0) := by
  by_cases hc : replyTaskIndexConflict (staleReplyTaskSweep db.tasks mention.id now)
      mention.id = true
  · have har : adapterReply reply db mention content now taskId newMentionId =
        ⟨{ db with tasks := ⟨taskId, .REPLY_MENTION_IGNORED,
              ⟨some mention.id, content, false, none⟩, some now, some now⟩ ::
            staleReplyTaskSweep db.tasks mention.id now }, true, 0⟩ := by
      unfold adapterReply
      rw [if_pos hc]
    rw [har]
    refine ⟨?_, fun _ => ⟨rfl, rfl, rfl⟩⟩
    intro mid
    have hle := replyTaskCount_sweep_le db.tasks mention.id now mid
    have hu := hUniq mid
    dsimp only
    rw [replyTaskCount_cons, if_neg (by simp)]
    omega
  · have hcf : replyTaskIndexConflict (staleReplyTaskSweep db.tasks mention.id now)
        mention.id = false := by
      cases hcv : replyTaskIndexConflict (staleReplyTaskSweep db.tasks mention.id now)
          mention.id
      · rfl
      · exact absurd hcv hc
    have har : adapterReply reply db mention content now taskId newMentionId =
        (let newTask : Task := ⟨taskId, .REPLY_MENTION,
            ⟨some mention.id, content, false, none⟩, some now, none⟩
         let db2 : Db := { db with
            tasks := newTask :: staleReplyTaskSweep db.tasks mention.id now
            audits := ⟨.REPLY_ATTEMPT, mention.id, taskId⟩ ::
              (⟨db.mentions, staleReplyTaskSweep db.tasks mention.id now, db.audits⟩ : Db).audits
            mentions := updateMentionState db.mentions mention.id (some .REPLY_ATTEMPT) }
         ⟨(processReplyTask reply db2 newTask now newMentionId).db, false,
           (processReplyTask reply db2 newTask now newMentionId).replyCalls⟩) := by
      unfold adapterReply
      rw [if_neg (by rw [hcf]; simp)]
    rw [har]
    dsimp only
    refine ⟨?_, fun hcon => absurd hcon hc⟩
    intro mid
    rw [processReplyTask_replyTaskCount]
    · rw [replyTaskCount_cons]
      by_cases hm : mid = mention.id
      · rw [hm]
        have h0 := replyTaskCount_of_no_conflict _ mention.id hcf
        rw [if_pos ⟨rfl, rfl⟩]
        omega
      · rw [if_neg (by simp; omega)]
        have hle := replyTaskCount_sweep_le db.tasks mention.id now mid
        have hu := hUniq mid
        omega
    · intro t ht hid
      rcases List.mem_cons.mp ht with hhd | htl
      · rw [hhd]
      · have : t ∈ db.tasks := List.mem_of_mem_filter htl
        exact absurd hid (hFreshTask t this)

/-- Witness for claim C2: a store already holding a recent unfinished
REPLY_MENTION task for mention 1 makes a second attempt hit the unique index
and be recorded as REPLY_MENTION_IGNORED without an upstream call. -/
theorem claim_C2_witness :
    replyTasksUnique (adapterReply (fun _ _ => ⟨"success", ⟨"hi", "r1"⟩⟩)
        ⟨[⟨1, "c", "ref1", "post1", "bluesky", .COMMENT, none, none⟩],
          [⟨7, .REPLY_MENTION, ⟨some 1, "hello", false, none⟩, some 50, none⟩], []⟩
        ⟨1, "c", "ref1", "post1", "bluesky", .COMMENT, none, none⟩
        "hello again" 60 8 3).db.tasks
    ∧ (replyTaskIndexConflict
          (staleReplyTaskSweep
            [⟨7, .REPLY_MENTION, ⟨some 1, "hello", false, none⟩, some 50, none⟩] 1 60) 1 =
          true →
        (adapterReply (fun _ _ => ⟨"success", ⟨"hi", "r1"⟩⟩)
            ⟨[⟨1, "c", "ref1", "post1", "bluesky", .COMMENT, none, none⟩],
              [⟨7, .REPLY_MENTION, ⟨some 1, "hello", false, none⟩, some 50, none⟩], []⟩
            ⟨1, "c", "ref1", "post1", "bluesky", .COMMENT, none, none⟩
            "hello again" 60 8 3).db.tasks.head? =
          some ⟨8, .REPLY_MENTION_IGNORED, ⟨some 1, "hello again", false, none⟩,
            some 60, some 60⟩
        ∧ (adapterReply (fun _ _ => ⟨"success", ⟨"hi", "r1"⟩⟩)
            ⟨[⟨1, "c", "ref1", "post1", "bluesky", .COMMENT, none, none⟩],
              [⟨7, .REPLY_MENTION, ⟨some 1, "hello", false, none⟩, some 50, none⟩], []⟩
            ⟨1, "c", "ref1", "post1", "bluesky", .COMMENT, none, none⟩
            "hello again" 60 8 3).errored = true
        ∧ (adapterReply (fun _ _ => ⟨"success", ⟨"hi", "r1"⟩⟩)
            ⟨[⟨1, "c", "ref1", "post1", "bluesky", .COMMENT, none, none⟩],
              [⟨7, .REPLY_MENTION, ⟨some 1, "hello", false, none⟩, some 50, none⟩], []⟩
            ⟨1, "c", "ref1", "post1", "bluesky", .COMMENT, none, none⟩
            "hello again" 60 8 3).replyCalls = 0) :=
  claim_C2 (fun _ _ => ⟨"success", ⟨"hi", "r1"⟩⟩)
    ⟨[⟨1, "c", "ref1", "post1", "bluesky", .COMMENT, none, none⟩],
      [⟨7, .REPLY_MENTION, ⟨some 1, "hello", false, none⟩, some 50, none⟩], []⟩
    ⟨1, "c", "ref1", "post1", "bluesky", .COMMENT, none, none⟩
    "hello again" 60 8 3 (by decide)
    (fun mid => le_trans (List.countP_le_length _) (by decide))

lemma hasRef_insertMentionRow_self (ms : List Mention) (nid : Nat) (r : MentionRow) :
    hasRef (insertMentionRow ms nid r) r.socialMediaPlatformRef = true := by
  unfold insertMentionRow
  by_cases h : hasRef ms r.socialMediaPlatformRef
  · rw [if_pos h]
    exact h
  · rw [if_neg h]
    unfold hasRef
    rw [List.any_append]
    simp

lemma hasRef_insertMentionRow_mono (ms : List Mention) (nid : Nat) (r : MentionRow)
    (ref : String) (h : hasRef ms ref = true) :
    hasRef (insertMentionRow ms nid r) ref = true := by
  unfold insertMentionRow
  split
  · exact h
  · unfold hasRef at h ⊢
    rw [List.any_append]
    simp [h]

lemma hasRef_count_pos (ms : List Mention) (ref : String)
    (h : hasRef ms ref = true) : 1 ≤ refCount ms ref := by
  unfold hasRef at h
  obtain ⟨m, hm, hp⟩ := List.any_eq_true.mp h
  unfold refCount
  exact List.countP_pos_iff.mpr ⟨m, hm, hp⟩

lemma refCount_insertMentionRow_le (ms : List Mention) (nid : Nat) (r : MentionRow)
    (ref : String) (h1 : refCount ms ref ≤ 1) :
    refCount (insertMentionRow ms nid r) ref ≤ 1 := by
  unfold insertMentionRow
  by_cases h : hasRef ms r.socialMediaPlatformRef
  · rw [if_pos h]
    exact h1
  · rw [if_neg h]
    unfold refCount at h1 ⊢
    rw [List.countP_append]
    by_cases he : r.socialMediaPlatformRef = ref
    · have h0 : ms.countP (fun m => decide (m.socialMediaPlatformRef = ref)) = 0 := by
        apply List.countP_eq_zero.mpr
        intro m hm hp
        apply h
        unfold hasRef
        refine List.any_eq_true.mpr ⟨m, hm, ?_⟩
        rw [he]
        exact hp
      rw [h0]
      simp [he]
    · simp [he]
      omega

lemma createMentions_hasRef_mono (rows : List MentionRow) :
    ∀ (ms : List Mention) (nid : Nat) (ref : String), hasRef ms ref = true →
      hasRef (createMentions ms nid rows) ref = true := by
  induction rows with
  | nil => intro ms nid ref h; exact h
  | cons r rs ih =>
      intro ms nid ref h
      exact ih _ _ ref (hasRef_insertMentionRow_mono ms nid r ref h)

lemma createMentions_mem_hasRef (rows : List MentionRow) :
    ∀ (ms : List Mention) (nid : Nat), ∀ r ∈ rows,
      hasRef (createMentions ms nid rows) r.socialMediaPlatformRef = true := by
  induction rows with
  | nil => intro ms nid r hr; cases hr
  | cons r0 rs ih =>
      intro ms nid r hr
      rcases List.mem_cons.mp hr with heq | htl
      · rw [heq]
        exact createMentions_hasRef_mono rs _ _ _
          (hasRef_insertMentionRow_self ms nid r0)
      · exact ih _ _ r htl

lemma createMentions_unique (rows : List MentionRow) :
    ∀ (ms : List Mention) (nid : Nat), (∀ ref, refCount ms ref ≤ 1) →
      ∀ ref, refCount (createMentions ms nid rows) ref ≤ 1 := by
  induction rows with
  | nil => intro ms nid h ref; exact h ref
  | cons r rs ih =>
      intro ms nid h ref
      exact ih _ _ (fun rf => refCount_insertMentionRow_le ms nid r rf (h rf)) ref

lemma createMentions_skip (rows : List MentionRow) :
    ∀ (ms : List Mention) (nid : Nat),
      (∀ r ∈ rows, hasRef ms r.socialMediaPlatformRef = true) →
      createMentions ms nid rows = ms := by
  induction rows with
  | nil => intro ms nid _; rfl
  | cons r rs ih =>
      intro ms nid h
      have hr : hasRef ms r.socialMediaPlatformRef = true := h r (List.mem_cons_self r rs)
      show createMentions (insertMentionRow ms nid r) (nid + 1) rs = ms
      rw [insertMentionRow, if_pos hr]
      exact ih ms (nid + 1) (fun r2 h2 => h r2 (List.mem_cons_of_mem r h2))

lemma ingestRounds_skip (rows : List MentionRow) (K : Nat) :
    ∀ (nids : Nat → Nat) (ms : List Mention),
      (∀ r ∈ rows, hasRef ms r.socialMediaPlatformRef = true) →
      ingestRounds rows nids K ms = ms := by
  induction K with
  | zero => intro nids ms _; rfl
  | succ k ih =>
      intro nids ms h
      show ingestRounds rows (fun i => nids (i + 1)) k (createMentions ms (nids 0) rows) = ms
      rw [createMentions_skip rows ms (nids 0) h]
      exact ih _ ms h

/-- Claim C6: ingesting the same batch of upstream comments K ≥ 1 times via
`_createMentions` is the same as ingesting it once, leaves exactly one
Mention row per distinct `socialMediaPlatformRef` of the batch, and preserves
the unique-ref invariant — already-present refs are skipped, so no
duplicate-key error reaches the caller (the embedded insert is total). -/
theorem claim_C6 (ms : List Mention) (rows : List MentionRow) (nids : Nat → Nat)
    (K : Nat) (hK : 1 ≤ K) (hUniq : ∀ ref, refCount ms ref ≤ 1) :
    ingestRounds rows nids K ms = createMentions ms (nids 0) rows
    ∧ (∀ r ∈ rows, refCount (ingestRounds rows nids K ms) r.socialMediaPlatformRef = 1)
    ∧ (∀ ref, refCount (ingestRounds rows nids K ms) ref ≤ 1) := by
  obtain ⟨k, rfl⟩ : ∃ k, K = k + 1 := ⟨K - 1, by omega⟩
  have hall : ∀ r ∈ rows,
      hasRef (createMentions ms (nids 0) rows) r.socialMediaPlatformRef = true :=
    createMentions_mem_hasRef rows ms (nids 0)
  have hstep : ingestRounds rows nids (k + 1) ms = createMentions ms (nids 0) rows := by
    show ingestRounds rows (fun i => nids (i + 1)) k (createMentions ms (nids 0) rows) =
      createMentions ms (nids 0) rows
    exact ingestRounds_skip rows k _ _ hall
  rw [hstep]
  refine ⟨rfl, ?_, createMentions_unique rows ms (nids 0) hUniq⟩
  intro r hr
  have h1 := hasRef_count_pos _ _ (hall r hr)
  have h2 := createMentions_unique rows ms (nids 0) hUniq r.socialMediaPlatformRef
  omega

/-- Witness for claim C6: a batch with a duplicated ref ingested twice into an
empty store. -/
theorem claim_C6_witness :
    ingestRounds [⟨"hi", "c1", "p1", "x", .COMMENT⟩, ⟨"yo", "c2", "p1", "x", .COMMENT⟩,
        ⟨"again", "c1", "p1", "x", .COMMENT⟩] (fun i => 10 * i) 2 [] =
      createMentions [] 0 [⟨"hi", "c1", "p1", "x", .COMMENT⟩,
        ⟨"yo", "c2", "p1", "x", .COMMENT⟩, ⟨"again", "c1", "p1", "x", .COMMENT⟩]
    ∧ (∀ r ∈ [(⟨"hi", "c1", "p1", "x", .COMMENT⟩ : MentionRow),
        ⟨"yo", "c2", "p1", "x", .COMMENT⟩, ⟨"again", "c1", "p1", "x", .COMMENT⟩],
        refCount (ingestRounds [⟨"hi", "c1", "p1", "x", .COMMENT⟩,
            ⟨"yo", "c2", "p1", "x", .COMMENT⟩, ⟨"again", "c1", "p1", "x", .COMMENT⟩]
            (fun i => 10 * i) 2 []) r.socialMediaPlatformRef = 1)
    ∧ (∀ ref, refCount (ingestRounds [⟨"hi", "c1", "p1", "x", .COMMENT⟩,
        ⟨"yo", "c2", "p1", "x", .COMMENT⟩, ⟨"again", "c1", "p1", "x", .COMMENT⟩]
        (fun i => 10 * i) 2 []) ref ≤ 1) :=
  claim_C6 [] [⟨"hi", "c1", "p1", "x", .COMMENT⟩, ⟨"yo", "c2", "p1", "x", .COMMENT⟩,
    ⟨"again", "c1", "p1", "x", .COMMENT⟩] (fun i => 10 * i) 2 (by decide)
    (fun ref => by simp [refCount])

/-- Claim C7, evaluated at the failing input: a FETCH_COMMENTS task created
within the last 10 minutes and still in flight stores its posts as full
objects, and `existingPostIds.includes(post.id)` never matches an object, so
`fetchAndSyncMentions` does NOT exclude post p1 and creates a new task for it
— the claim says a post appearing in any recent task, finished or in flight,
is excluded. A finished task (posts collapsed to id strings) is excluded as
claimed. -/
theorem claim_C7 :
    postsToFetch [⟨"p1"⟩] [⟨1, [.full ⟨"p1"⟩], 600000, none⟩] 600000 = [⟨"p1"⟩]
    ∧ postsToFetch [⟨"p1"⟩] [⟨1, [.idOnly "p1"], 600000, some 600001⟩] 600000 = []
    ∧ entryEqualsId (.full ⟨"p1"⟩) "p1" = false :=
  ⟨by decide, by decide, by decide⟩

/-- Counterexample to claim C9 as stated: mentionId = -1 is not a positive
integer, yet the validation block accepts it — the guard
`typeof parseInt(String(mentionId), 10) !== 'number'` is always false and
only falsiness rejects. All other validated fields are fine here. -/
theorem claim_C9_counterexample :
    replyValidation (-1) "hi" 1 "a@b" = none
    ∧ ¬ (0 < (-1 : Int))
    ∧ "hi" ≠ "" ∧ "hi".length ≤ 10000 ∧ (1 : Nat) ≠ 0 ∧ "a@b" ≠ "" :=
  ⟨by decide, by decide, by decide, by decide, by decide, by decide⟩

/-- Claim C9, amended: `reply` rejects with a validation error exactly when
`mentionId` is absent or zero (the positive-integer check is vacuous), or
`content` is absent or empty, or `content` exceeds 10 000 characters, or
`actor.id` or `actor.email` is absent; when validation fails the store is
returned untouched — no task is created and no mention state changes. -/
theorem claim_C9 (mid : Int) (content : String) (uid : Nat) (email : String)
    (reply : Mention → String → ReplyResult) (db : Db) (now taskId newMentionId : Nat) :
    ((replyValidation mid content uid email).isSome ↔
      (mid = 0 ∨ content = "" ∨ 10000 < content.length ∨ uid = 0 ∨ email = ""))
    ∧ (∀ e, replyValidation mid content uid email = some e →
        serviceReply reply db mid content uid email now taskId newMentionId =
          (db, some (.validation e))) := by
  constructor
  · unfold replyValidation
    split_ifs with h1 h2 h3 h4 <;> simp_all
  · intro e he
    simp only [serviceReply, he]

/-- Witness for claim C9: a zero mentionId is rejected as a validation error
with the store untouched. -/
theorem claim_C9_witness :
    serviceReply (fun _ _ => ⟨"success", ⟨"c", "r"⟩⟩) ⟨[], [], []⟩ 0 "hi" 1 "a@b" 5 6 7 =
      (⟨[], [], []⟩, some (.validation .invalidMentionId)) :=
  (claim_C9 0 "hi" 1 "a@b" (fun _ _ => ⟨"success", ⟨"c", "r"⟩⟩) ⟨[], [], []⟩ 5 6 7).2
    .invalidMentionId (by decide)

end MSM
